import Mathlib

/-!
Verification of the StephanePiazo real-estate analysis pipeline.

This file gives a shallow embedding, in Lean 4, of the data model and the
operations of the repository (DVF transaction cleaning, price statistics,
rent statistics, and the combined price/rent analyzer), and proves the
behavioural properties stated about them.

Conventions of the embedding:
* Python strings are modelled as lists of (ASCII) codepoints, `PyStr := List Nat`;
  `str.upper` / `str.lower` / `str.strip` / `str.title` are modelled on that
  representation.
* Python floats are modelled as exact rationals `ℚ`; Python ints as `ℤ`.
* A possibly missing value (`None` / pandas `NaN`) is an `Option`.
* A pandas DataFrame is a list of records, one structure field per column.
* A Python function that can raise is modelled with an explicit error
  constructor in its result type.
-/

/-- Python strings, as lists of codepoints. -/
abbrev PyStr := List Nat

/-- Inject a Lean string literal into the codepoint representation. -/
def pyOfString (s : String) : PyStr := s.data.map Char.toNat

/-- ASCII uppercase of one codepoint (`str.upper`, restricted to ASCII). -/
def upperChar (c : Nat) : Nat := if 97 ≤ c ∧ c ≤ 122 then c - 32 else c

/-- ASCII lowercase of one codepoint (`str.lower`, restricted to ASCII). -/
def lowerChar (c : Nat) : Nat := if 65 ≤ c ∧ c ≤ 90 then c + 32 else c

/-- Is the codepoint an ASCII letter? -/
def isAlphaChar (c : Nat) : Bool := decide ((97 ≤ c ∧ c ≤ 122) ∨ (65 ≤ c ∧ c ≤ 90))

/-- Is the codepoint Python whitespace? -/
def isSpaceChar (c : Nat) : Bool := decide (c = 32 ∨ (9 ≤ c ∧ c ≤ 13))

/-- `str.upper`. -/
def pyUpper (s : PyStr) : PyStr := s.map upperChar

/-- `str.strip`: remove leading and trailing whitespace. -/
def pyStrip (s : PyStr) : PyStr :=
  (s.dropWhile isSpaceChar).rdropWhile isSpaceChar

/-- Worker for `str.title`: the boolean records whether the previous
character was a letter. -/
def titleAux : Bool → PyStr → PyStr
  | _, [] => []
  | prev, c :: cs =>
    if isAlphaChar c then
      (if prev then lowerChar c else upperChar c) :: titleAux true cs
    else
      c :: titleAux false cs

/-- `str.title`: first letter of every alphabetic run uppercased, the rest
lowercased. -/
def pyTitle (s : PyStr) : PyStr := titleAux false s

/-! ### Configuration constants (src/utils/config.py) -/

/-- Minimum price per m² kept by the cleaner (`MIN_PRICE_M2 = 500.0`). -/
def MIN_PRICE_M2 : ℚ := 500

/-- Maximum price per m² kept by the cleaner (`MAX_PRICE_M2 = 40000.0`). -/
def MAX_PRICE_M2 : ℚ := 40000

/-- Minimum built surface kept by the cleaner (`MIN_SURFACE = 9.0`). -/
def MIN_SURFACE : ℚ := 9

/-- Mutation types retained (`VALID_MUTATION_TYPES = ["Vente"]`). -/
def VALID_MUTATION_TYPES : List PyStr := [pyOfString "Vente"]

/-! ### DVF transaction rows and the cleaner (src/data/data_cleaner.py) -/

/-- A mutation date column entry: either still the raw CSV text, or the
result of `pd.to_datetime(..., errors="coerce")` (with `none` for `NaT`). -/
inductive DateVal where
  | raw (s : PyStr)
  | parsed (t : Option Nat)
deriving DecidableEq, Repr

/-- Decimal digit string to number, `none` when empty or non-numeric. -/
def decDigits (s : PyStr) : Option Nat :=
  if s ≠ [] ∧ s.all (fun c => decide (48 ≤ c ∧ c ≤ 57)) then
    some (s.foldl (fun a c => a * 10 + (c - 48)) 0)
  else none

/-- Parse an ISO `YYYY-MM-DD` date string into a comparable numeral,
coercing anything else to `none` (the `NaT` of `errors="coerce"`). -/
def parseDateStr (s : PyStr) : Option Nat :=
  match s with
  | [y1, y2, y3, y4, 45, m1, m2, 45, d1, d2] =>
    match decDigits [y1, y2, y3, y4], decDigits [m1, m2], decDigits [d1, d2] with
    | some y, some m, some d =>
      if 1 ≤ m ∧ m ≤ 12 ∧ 1 ≤ d ∧ d ≤ 31 then some (y * 10000 + m * 100 + d) else none
    | _, _, _ => none
  | _ => none

/-- `pd.to_datetime(col, errors="coerce")`: parses raw text, and is the
identity on an already-parsed datetime column. -/
def toDatetime : DateVal → DateVal
  | .raw s => .parsed (parseDateStr s)
  | .parsed t => .parsed t

/-- One DVF transaction row, with exactly the columns the cleaner retains
(stage 6 of `clean_dvf_data` projects onto this column set). -/
structure DvfRow where
  date_mutation : DateVal
  nature_mutation : PyStr
  valeur_fonciere : Option ℚ
  code_commune : PyStr
  nom_commune : PyStr
  code_departement : PyStr
  type_local : PyStr
  surface_reelle_bati : Option ℚ
  nombre_pieces_principales : Option ℤ
  prix_m2 : Option ℚ
deriving DecidableEq, Repr

/-- Elementwise pandas division of two columns: missing propagates.
(The cleaner divides only after stage 3 has guaranteed a present,
≥ `MIN_SURFACE` — hence nonzero — denominator.) -/
def optDiv (a b : Option ℚ) : Option ℚ :=
  match a, b with
  | some x, some y => some (x / y)
  | _, _ => none

/-- Stage 1 predicate: `nature_mutation` is in the allowed set. -/
def passesMutation (r : DvfRow) : Bool :=
  decide (r.nature_mutation ∈ VALID_MUTATION_TYPES)

/-- Stage 2 predicate: `valeur_fonciere` present and strictly positive. -/
def passesValeur (r : DvfRow) : Bool :=
  match r.valeur_fonciere with
  | some v => decide (0 < v)
  | none => false

/-- Stage 3 predicate: `surface_reelle_bati` present and ≥ `MIN_SURFACE`. -/
def passesSurface (r : DvfRow) : Bool :=
  match r.surface_reelle_bati with
  | some s => decide (MIN_SURFACE ≤ s)
  | none => false

/-- Stage 4: derive `prix_m2 = valeur_fonciere / surface_reelle_bati`. -/
def computePrix (r : DvfRow) : DvfRow :=
  { r with prix_m2 := optDiv r.valeur_fonciere r.surface_reelle_bati }

/-- Stage 5 predicate: `prix_m2` within `[MIN_PRICE_M2, MAX_PRICE_M2]`. -/
def passesPrix (r : DvfRow) : Bool :=
  match r.prix_m2 with
  | some p => decide (MIN_PRICE_M2 ≤ p ∧ p ≤ MAX_PRICE_M2)
  | none => false

/-- Stage 7: parse the date column. -/
def parseDates (r : DvfRow) : DvfRow :=
  { r with date_mutation := toDatetime r.date_mutation }

/-- Stage 8: normalize the commune name (`.str.strip().str.title()`). -/
def normalizeNom (r : DvfRow) : DvfRow :=
  { r with nom_commune := pyTitle (pyStrip r.nom_commune) }

/-- Worker for `drop_duplicates`: keep the first occurrence of each row,
`seen` being the rows already emitted. -/
def dropDupFirstAux {α : Type} [DecidableEq α] (seen : List α) : List α → List α
  | [] => []
  | a :: l =>
    if a ∈ seen then dropDupFirstAux seen l
    else a :: dropDupFirstAux (a :: seen) l

/-- `DataFrame.drop_duplicates()`: keep the first occurrence of each row,
preserving order. -/
def dropDupFirst {α : Type} [DecidableEq α] (l : List α) : List α :=
  dropDupFirstAux [] l

/-- `DataCleaner.clean_dvf_data`: the nine-stage pipeline, in source order.
Stage 6 (column projection) is the identity here because `DvfRow` already
holds exactly the retained columns. -/
def cleanDvfData (df : List DvfRow) : List DvfRow :=
  let s1 := df.filter passesMutation
  let s2 := s1.filter passesValeur
  let s3 := s2.filter passesSurface
  let s4 := s3.map computePrix
  let s5 := s4.filter passesPrix
  let s7 := s5.map parseDates
  let s8 := s7.map normalizeNom
  dropDupFirst s8

/-! ### pandas column statistics

A pandas numeric column is a `List (Option ℚ)`; aggregations skip missing
values, and an aggregation over no present values is itself missing (`NaN`). -/

/-- Sum of a list of rationals. -/
def pdSum (l : List ℚ) : ℚ := l.foldl (· + ·) 0

/-- `Series.mean()` over the present values. -/
def pdMean (l : List ℚ) : Option ℚ :=
  match l with
  | [] => none
  | _ => some (pdSum l / l.length)

/-- `Series.min()` over the present values. -/
def pdMin (l : List ℚ) : Option ℚ :=
  match l with
  | [] => none
  | a :: t => some (t.foldl min a)

/-- `Series.max()` over the present values. -/
def pdMax (l : List ℚ) : Option ℚ :=
  match l with
  | [] => none
  | a :: t => some (t.foldl max a)

/-- `Series.median()`: middle of the sorted values for an odd count, the
average of the two middle values for an even count. -/
def pdMedian (l : List ℚ) : Option ℚ :=
  match l with
  | [] => none
  | _ =>
    let s := l.insertionSort (· ≤ ·)
    let n := s.length
    if n % 2 = 1 then some (s.getD (n / 2) 0)
    else some ((s.getD (n / 2 - 1) 0 + s.getD (n / 2) 0) / 2)

/-! ### Rent statistics record (src/models/city.py, `RentStats`) -/

/-- `RentStats`: per-commune rent indicators from the Carte des loyers. -/
structure RentStats where
  loyer_moyen_m2 : Option ℚ := none
  loyer_bas_m2 : Option ℚ := none
  loyer_haut_m2 : Option ℚ := none
  type_prediction : Option PyStr := none
  nb_observations_commune : Option ℤ := none
  nb_observations_maille : Option ℤ := none
  r2_ajuste : Option ℚ := none
  id_maille : Option PyStr := none
deriving DecidableEq, Repr

/-- Python truthiness of an optional float: `None` and `0.0` are falsy. -/
def truthyQ (o : Option ℚ) : Bool :=
  match o with
  | none => false
  | some x => decide (x ≠ 0)

/-- Python truthiness of an optional int: `None` and `0` are falsy. -/
def truthyZ (o : Option ℤ) : Bool :=
  match o with
  | none => false
  | some x => decide (x ≠ 0)

/-- `RentStats.is_reliable`: `False` when `r2_ajuste` or
`nb_observations_commune` is falsy, else `r2 ≥ 0.5 and obs ≥ 30`. -/
def RentStats.isReliable (s : RentStats) : Bool :=
  if ¬ truthyQ s.r2_ajuste ∨ ¬ truthyZ s.nb_observations_commune then false
  else decide ((s.r2_ajuste.getD 0) ≥ 1/2) && decide ((s.nb_observations_commune.getD 0) ≥ 30)

/-! ### Price statistics (src/models/city.py and src/analysis/price_analyzer.py) -/

/-- `PropertyTypeStats`: statistics over the apartment or house subset. -/
structure PropertyTypeStats where
  prix_moyen_m2 : Option ℚ
  prix_min_m2 : Option ℚ
  prix_max_m2 : Option ℚ
  nombre_transactions : ℕ
  nombre_t1 : ℕ
  nombre_t2 : ℕ
  nombre_t3 : ℕ
  nombre_t4 : ℕ
  nombre_t5_plus : ℕ
  surface_moyenne : Option ℚ
deriving DecidableEq, Repr

/-- `CityStats`: per-commune sale-price statistics. -/
structure CityStats where
  prix_moyen_m2 : Option ℚ
  prix_median_m2 : Option ℚ
  prix_min_m2 : Option ℚ
  prix_max_m2 : Option ℚ
  nombre_transactions : ℕ
  nombre_t1 : ℕ
  nombre_t2 : ℕ
  nombre_t3 : ℕ
  nombre_t4 : ℕ
  nombre_t5_plus : ℕ
  surface_moyenne : Option ℚ
  appartements : Option PropertyTypeStats := none
  maisons : Option PropertyTypeStats := none
  loyers : Option RentStats := none
deriving DecidableEq, Repr

/-- The present `prix_m2` values of a row set. -/
def prixVals (rows : List DvfRow) : List ℚ := rows.filterMap (·.prix_m2)

/-- The present `surface_reelle_bati` values of a row set. -/
def surfVals (rows : List DvfRow) : List ℚ := rows.filterMap (·.surface_reelle_bati)

/-- `(col["nombre_pieces_principales"] == k).sum()` (missing compares unequal). -/
def roomCountEq (rows : List DvfRow) (k : ℤ) : ℕ :=
  (rows.filter (fun r => decide (r.nombre_pieces_principales = some k))).length

/-- `(col["nombre_pieces_principales"] >= 5).sum()` (missing compares false). -/
def roomCountGe5 (rows : List DvfRow) : ℕ :=
  (rows.filter (fun r =>
    match r.nombre_pieces_principales with
    | some n => decide (5 ≤ n)
    | none => false)).length

/-- The statistics block `get_city_stats` computes over a subset of rows
(the whole commune, its apartments, or its houses). -/
def mkPropertyTypeStats (rows : List DvfRow) : PropertyTypeStats :=
  { prix_moyen_m2 := pdMean (prixVals rows)
    prix_min_m2 := pdMin (prixVals rows)
    prix_max_m2 := pdMax (prixVals rows)
    nombre_transactions := rows.length
    surface_moyenne := pdMean (surfVals rows)
    nombre_t1 := roomCountEq rows 1
    nombre_t2 := roomCountEq rows 2
    nombre_t3 := roomCountEq rows 3
    nombre_t4 := roomCountEq rows 4
    nombre_t5_plus := roomCountGe5 rows }

/-- Does the row belong to the commune, by case-folded exact name match
(`df["nom_commune"].str.upper() == city_name.upper()`)? -/
def matchesCity (city_name : PyStr) (r : DvfRow) : Bool :=
  decide (pyUpper r.nom_commune = pyUpper city_name)

/-- `PriceAnalyzer.get_city_stats`: `none` when no row matches, otherwise
the statistics of the matching subset, with nested per-property-type
statistics for each non-empty subset. -/
def getCityStats (df : List DvfRow) (city_name : PyStr) : Option CityStats :=
  let city_df := df.filter (matchesCity city_name)
  match city_df with
  | [] => none
  | _ =>
    let apparts := city_df.filter (fun r => decide (r.type_local = pyOfString "Appartement"))
    let maisons := city_df.filter (fun r => decide (r.type_local = pyOfString "Maison"))
    some
      { prix_moyen_m2 := pdMean (prixVals city_df)
        prix_median_m2 := pdMedian (prixVals city_df)
        prix_min_m2 := pdMin (prixVals city_df)
        prix_max_m2 := pdMax (prixVals city_df)
        nombre_transactions := city_df.length
        surface_moyenne := pdMean (surfVals city_df)
        nombre_t1 := roomCountEq city_df 1
        nombre_t2 := roomCountEq city_df 2
        nombre_t3 := roomCountEq city_df 3
        nombre_t4 := roomCountEq city_df 4
        nombre_t5_plus := roomCountGe5 city_df
        appartements := match apparts with
          | [] => none
          | _ => some (mkPropertyTypeStats apparts)
        maisons := match maisons with
          | [] => none
          | _ => some (mkPropertyTypeStats maisons) }

/-! ### Rent-indicator rows and the rent analyzer (src/analysis/rent_analyzer.py) -/

/-- One row of the loaded Carte des loyers table (after
`RentDownloader.load_rent_data`, which concatenates the apartment file and
the house file, tagging each with `type_bien`). -/
structure RentRow where
  id_zone : Option PyStr
  INSEE_C : PyStr
  LIBGEO : PyStr
  EPCI : PyStr
  DEP : PyStr
  loypredm2 : Option ℚ
  lwr_IPm2 : Option ℚ
  upr_IPm2 : Option ℚ
  TYPPRED : Option PyStr
  nbobs_com : Option ℤ
  nbobs_mail : Option ℤ
  R2_adj : Option ℚ
  type_bien : Option PyStr
deriving DecidableEq, Repr

/-- Python truthiness of an optional string: `None` and `""` are falsy. -/
def truthyS (o : Option PyStr) : Bool :=
  match o with
  | none => false
  | some s => decide (s ≠ [])

/-- Exceptions raised by the modelled functions. -/
inductive PyError where
  | valueError
  | zeroDivisionError
deriving DecidableEq, Repr

/-- Build a `RentStats` from one matching row (lines 105–114 of
`rent_analyzer.py`). -/
def mkRentStats (r : RentRow) : RentStats :=
  { loyer_moyen_m2 := r.loypredm2
    loyer_bas_m2 := r.lwr_IPm2
    loyer_haut_m2 := r.upr_IPm2
    type_prediction := r.TYPPRED
    nb_observations_commune := r.nbobs_com
    nb_observations_maille := r.nbobs_mail
    r2_ajuste := r.R2_adj
    id_maille := r.id_zone }

/-- Row mask used by `get_city_rent_stats` when looking up by INSEE code. -/
def matchesInsee (insee : PyStr) (r : RentRow) : Bool :=
  decide (r.INSEE_C = insee)

/-- Row mask used by `get_city_rent_stats` when looking up by name
(`data["LIBGEO"].str.upper() == city_name.upper()`). -/
def matchesLibgeo (city_name : PyStr) (r : RentRow) : Bool :=
  decide (pyUpper r.LIBGEO = pyUpper city_name)

/-- `RentAnalyzer.get_city_rent_stats`: chooses the INSEE mask when
`insee_code` is truthy, else the name mask when `city_name` is truthy,
else raises `ValueError`; returns `none` on an empty match and otherwise
the statistics of the first matching row. -/
def getCityRentStats (data : List RentRow) (city_name insee_code : Option PyStr) :
    Except PyError (Option RentStats) :=
  if truthyS insee_code then
    match data.filter (matchesInsee (insee_code.getD [])) with
    | [] => .ok none
    | r :: _ => .ok (some (mkRentStats r))
  else if truthyS city_name then
    match data.filter (matchesLibgeo (city_name.getD [])) with
    | [] => .ok none
    | r :: _ => .ok (some (mkRentStats r))
  else .error .valueError

/-- `sort_values` comparator for ascending rent order: missing values sort
last (`na_position="last"`). -/
def optLeAsc (x y : Option ℚ) : Bool :=
  match x, y with
  | none, none => true
  | none, some _ => false
  | some _, none => true
  | some u, some v => decide (u ≤ v)

/-- `sort_values` comparator for descending rent order: missing values
still sort last. -/
def optLeDesc (x y : Option ℚ) : Bool :=
  match x, y with
  | none, none => true
  | none, some _ => false
  | some _, none => true
  | some u, some v => decide (v ≤ u)

/-- Ascending order on rows by `loypredm2`. -/
def rentAsc (a b : RentRow) : Prop := optLeAsc a.loypredm2 b.loypredm2 = true

/-- Descending order on rows by `loypredm2`. -/
def rentDesc (a b : RentRow) : Prop := optLeDesc a.loypredm2 b.loypredm2 = true

instance : DecidableRel rentAsc := fun a b => by unfold rentAsc; infer_instance

instance : DecidableRel rentDesc := fun a b => by unfold rentDesc; infer_instance

/-- `rentAsc` is total: any two optional rents compare one way or the other. -/
instance : IsTotal RentRow rentAsc :=
  ⟨by
    intro a b
    unfold rentAsc optLeAsc
    rcases a.loypredm2 with _ | u <;> rcases b.loypredm2 with _ | v <;> simp
    exact le_total u v⟩

/-- `rentAsc` is transitive. -/
instance : IsTrans RentRow rentAsc :=
  ⟨by
    intro a b c
    unfold rentAsc optLeAsc
    rcases a.loypredm2 with _ | u <;> rcases b.loypredm2 with _ | v <;>
      rcases c.loypredm2 with _ | w <;> simp
    exact le_trans⟩

/-- `rentDesc` is total. -/
instance : IsTotal RentRow rentDesc :=
  ⟨by
    intro a b
    unfold rentDesc optLeDesc
    rcases a.loypredm2 with _ | u <;> rcases b.loypredm2 with _ | v <;> simp
    exact le_total v u⟩

/-- `rentDesc` is transitive. -/
instance : IsTrans RentRow rentDesc :=
  ⟨by
    intro a b c
    unfold rentDesc optLeDesc
    rcases a.loypredm2 with _ | u <;> rcases b.loypredm2 with _ | v <;>
      rcases c.loypredm2 with _ | w <;> simp
    intro h1 h2
    exact le_trans h2 h1⟩

/-- Result row of `get_top_cities` (the selected and renamed columns). -/
structure TopCityRow where
  commune : PyStr
  code_insee : PyStr
  departement : PyStr
  loyer_moyen_m2 : Option ℚ
  loyer_bas_m2 : Option ℚ
  loyer_haut_m2 : Option ℚ
  type_prediction : Option PyStr
  nb_observations : Option ℤ
  r2_ajuste : Option ℚ
deriving DecidableEq, Repr

/-- Column selection and renaming done at the end of `get_top_cities`. -/
def toTopCityRow (r : RentRow) : TopCityRow :=
  { commune := r.LIBGEO
    code_insee := r.INSEE_C
    departement := r.DEP
    loyer_moyen_m2 := r.loypredm2
    loyer_bas_m2 := r.lwr_IPm2
    loyer_haut_m2 := r.upr_IPm2
    type_prediction := r.TYPPRED
    nb_observations := r.nbobs_com
    r2_ajuste := r.R2_adj }

/-- `RentAnalyzer.get_top_cities`: optional department filter, sort by
predicted rent in the requested direction, take the first `n`, project. -/
def getTopCities (data : List RentRow) (n : ℕ) (department_code : Option PyStr)
    (ascending : Bool) : List TopCityRow :=
  let data1 :=
    if truthyS department_code then
      data.filter (fun r => decide (r.DEP = department_code.getD []))
    else data
  let sorted :=
    if ascending then data1.insertionSort rentAsc else data1.insertionSort rentDesc
  (sorted.take n).map toTopCityRow

/-! ### Combined analyzer (src/analysis/combined_analyzer.py) -/

/-- Outcome of the guarded `price_analyzer.get_city_stats(city_name)` call
inside the combined analyzer: a value, or a caught exception. -/
inductive LookupResult where
  | ok (s : Option CityStats)
  | exn
deriving DecidableEq, Repr

/-- One output row of `get_all_cities_combined_stats`. -/
structure CombinedRow where
  commune : PyStr
  code_insee : PyStr
  departement : PyStr
  loyer_moyen_m2 : Option ℚ
  loyer_bas_m2 : Option ℚ
  loyer_haut_m2 : Option ℚ
  nb_obs_loyers : Option ℤ
  r2_loyers : Option ℚ
  type_bien : Option PyStr
  prix_moyen_m2 : Option ℚ
  prix_min_m2 : Option ℚ
  prix_max_m2 : Option ℚ
  nb_transactions : Option ℕ
  rendement_brut_pct : Option ℚ
  rendement_bas_pct : Option ℚ
  rendement_haut_pct : Option ℚ
deriving DecidableEq, Repr

/-- The `city_data` dictionary built from the rent row alone (lines
213–226), with the whole price side still null. -/
def combinedRowBase (r : RentRow) : CombinedRow :=
  { commune := r.LIBGEO
    code_insee := r.INSEE_C
    departement := r.DEP
    loyer_moyen_m2 := r.loypredm2
    loyer_bas_m2 := r.lwr_IPm2
    loyer_haut_m2 := r.upr_IPm2
    nb_obs_loyers := r.nbobs_com
    r2_loyers := r.R2_adj
    type_bien := r.type_bien
    prix_moyen_m2 := none
    prix_min_m2 := none
    prix_max_m2 := none
    nb_transactions := none
    rendement_brut_pct := none
    rendement_bas_pct := none
    rendement_haut_pct := none }

/-- One iteration of the `get_all_cities_combined_stats` loop: fill the
price side of the row from the (guarded) price lookup. `lookup = none`
models `price_analyzer.df is None` (no DVF data loaded at all). -/
def combinedRow (r : RentRow) (lookup : Option LookupResult) : CombinedRow :=
  match lookup with
  | some (.ok (some ps)) =>
    let base := combinedRowBase r
    let yieldsOn :=
      truthyQ r.loypredm2 &&
        (match ps.prix_moyen_m2 with
         | some pm => decide (0 < pm)
         | none => false)
    { base with
      prix_moyen_m2 := ps.prix_moyen_m2
      prix_min_m2 := ps.prix_min_m2
      prix_max_m2 := ps.prix_max_m2
      nb_transactions := some ps.nombre_transactions
      rendement_brut_pct :=
        if yieldsOn then
          some (r.loypredm2.getD 0 * 12 / ps.prix_moyen_m2.getD 0 * 100)
        else none
      rendement_bas_pct :=
        if yieldsOn && truthyQ r.lwr_IPm2 then
          some (r.lwr_IPm2.getD 0 * 12 / ps.prix_moyen_m2.getD 0 * 100)
        else none
      rendement_haut_pct :=
        if yieldsOn && truthyQ r.upr_IPm2 then
          some (r.upr_IPm2.getD 0 * 12 / ps.prix_moyen_m2.getD 0 * 100)
        else none }
  | some (.ok none) => combinedRowBase r
  | some .exn => combinedRowBase r
  | none => combinedRowBase r

/-- `CombinedAnalyzer.get_all_cities_combined_stats`: optional department
filter on the rent table, then one combined row per rent row, the price
side coming from a per-commune guarded lookup. -/
def getAllCitiesCombinedStats (rentData : List RentRow) (department_code : Option PyStr)
    (dvf : Option (PyStr → LookupResult)) : List CombinedRow :=
  let data :=
    if truthyS department_code then
      rentData.filter (fun r => decide (r.DEP = department_code.getD []))
    else rentData
  data.map (fun r => combinedRow r (dvf.map (fun f => f r.LIBGEO)))

/-- The price lookup the combined analyzer actually performs when DVF data
is loaded: `PriceAnalyzer.get_city_stats` on the loaded price table (the
`try` around it never fires for this total function). -/
def dvfLookupOf (priceDf : List DvfRow) : PyStr → LookupResult :=
  fun name => .ok (getCityStats priceDf name)

/-- Result of `CombinedAnalyzer.calculate_rental_yield`: `noRent` models
the early `return None`, `noPrice` the null-yield dictionary, `computed`
the full dictionary, and `zeroDivError` an uncaught `ZeroDivisionError`. -/
inductive YieldResult where
  | noRent
  | noPrice (loyer_mensuel loyer_annuel : ℚ)
  | computed (loyer_mensuel loyer_annuel prix rendement : ℚ)
      (rendement_bas rendement_haut : Option ℚ) (fiable : Bool)
  | zeroDivError
deriving DecidableEq, Repr

/-- `CombinedAnalyzer.calculate_rental_yield`, with its inputs already
resolved: the rent-side lookup result, the caller-supplied
`prix_achat_m2`, and the DVF-side lookup result (`none` when
`price_analyzer.df is None`). When the DVF lookup supplies the price, it
is `price_stats.prix_moyen_m2` — over cleaned data that mean is always
present, so its `Option` is read directly as the price here. -/
def calculateRentalYield (rent_stats : Option RentStats) (prix_achat_m2 : Option ℚ)
    (dvfLookup : Option LookupResult) : YieldResult :=
  match rent_stats with
  | none => .noRent
  | some rs =>
    if ¬ truthyQ rs.loyer_moyen_m2 then .noRent
    else
      let loy := rs.loyer_moyen_m2.getD 0
      let prix : Option ℚ :=
        match prix_achat_m2, dvfLookup with
        | none, some (.ok (some ps)) => ps.prix_moyen_m2
        | none, _ => none
        | some p, _ => some p
      match prix with
      | none => .noPrice loy (loy * 12)
      | some p =>
        if p = 0 then .zeroDivError
        else
          .computed loy (loy * 12) p (loy * 12 / p * 100)
            (if truthyQ rs.loyer_bas_m2 then
              some (rs.loyer_bas_m2.getD 0 * 12 / p * 100) else none)
            (if truthyQ rs.loyer_haut_m2 then
              some (rs.loyer_haut_m2.getD 0 * 12 / p * 100) else none)
            rs.isReliable

/-! ### Concrete fixtures used to instantiate the theorems -/

/-- A raw DVF transaction row: a 500 000 € sale of a 50 m² apartment. -/
def exRawSale : DvfRow :=
  { date_mutation := .raw (pyOfString "2023-01-15")
    nature_mutation := pyOfString "Vente"
    valeur_fonciere := some 500000
    code_commune := pyOfString "75056"
    nom_commune := pyOfString " PARIS "
    code_departement := pyOfString "75"
    type_local := pyOfString "Appartement"
    surface_reelle_bati := some 50
    nombre_pieces_principales := some 2
    prix_m2 := none }

/-- A cleaned DVF price row for the commune spelled `"PARIS"`. -/
def exParisPriceRow : DvfRow :=
  { date_mutation := .parsed (some 20230115)
    nature_mutation := pyOfString "Vente"
    valeur_fonciere := some 500000
    code_commune := pyOfString "75056"
    nom_commune := pyOfString "PARIS"
    code_departement := pyOfString "75"
    type_local := pyOfString "Local commercial"
    surface_reelle_bati := some 50
    nombre_pieces_principales := some 2
    prix_m2 := some 10000 }

/-- Template rent row; the fixtures below override the relevant fields. -/
def exRentBase : RentRow :=
  { id_zone := none
    INSEE_C := pyOfString "00000"
    LIBGEO := pyOfString ""
    EPCI := pyOfString ""
    DEP := pyOfString "75"
    loypredm2 := none
    lwr_IPm2 := none
    upr_IPm2 := none
    TYPPRED := none
    nbobs_com := none
    nbobs_mail := none
    R2_adj := none
    type_bien := none }

/-- Rent row for the commune spelled `"Paris"`, predicted rent 28.5 €/m². -/
def exRentParis : RentRow :=
  { exRentBase with
    INSEE_C := pyOfString "75056"
    LIBGEO := pyOfString "Paris"
    loypredm2 := some (57/2)
    nbobs_com := some 150
    R2_adj := some (3/4) }

/-- Rent row with predicted rent 22.3 €/m². -/
def exRentMontreuil : RentRow :=
  { exRentBase with
    INSEE_C := pyOfString "93048"
    LIBGEO := pyOfString "Montreuil"
    DEP := pyOfString "93"
    loypredm2 := some (223/10) }

/-- Rent row with predicted rent 18.7 €/m². -/
def exRentMeaux : RentRow :=
  { exRentBase with
    INSEE_C := pyOfString "77284"
    LIBGEO := pyOfString "Meaux"
    DEP := pyOfString "77"
    loypredm2 := some (187/10) }

/-- Apartment-file rent row for Pantin (concatenated first). -/
def exRentPantinApt : RentRow :=
  { exRentBase with
    INSEE_C := pyOfString "93055"
    LIBGEO := pyOfString "Pantin"
    DEP := pyOfString "93"
    loypredm2 := some (43/2)
    type_bien := some (pyOfString "appartements") }

/-- House-file rent row for the same commune (concatenated second). -/
def exRentPantinHouse : RentRow :=
  { exRentBase with
    INSEE_C := pyOfString "93055"
    LIBGEO := pyOfString "Pantin"
    DEP := pyOfString "93"
    loypredm2 := some (18)
    type_bien := some (pyOfString "maisons") }

/-- A rent-statistics record with rent 28.5 €/m² (and nothing else). -/
def exRentStats : RentStats := { loyer_moyen_m2 := some (57/2) }

/-- City price statistics with a mean price of 10 000 €/m². -/
def exParisCityStats : CityStats :=
  { prix_moyen_m2 := some 10000
    prix_median_m2 := some 10000
    prix_min_m2 := some 10000
    prix_max_m2 := some 10000
    nombre_transactions := 1
    nombre_t1 := 0
    nombre_t2 := 1
    nombre_t3 := 0
    nombre_t4 := 0
    nombre_t5_plus := 0
    surface_moyenne := some 50 }

/-- Cleaned price row for Paris at 10 000 €/m², 50 m², 2 rooms. -/
def exCleanA : DvfRow :=
  { date_mutation := .parsed (some 20230110)
    nature_mutation := pyOfString "Vente"
    valeur_fonciere := some 500000
    code_commune := pyOfString "75056"
    nom_commune := pyOfString "Paris"
    code_departement := pyOfString "75"
    type_local := pyOfString "Local commercial"
    surface_reelle_bati := some 50
    nombre_pieces_principales := some 2
    prix_m2 := some 10000 }

/-- Cleaned price row for Paris at 12 000 €/m², 60 m², 3 rooms. -/
def exCleanB : DvfRow :=
  { date_mutation := .parsed (some 20230211)
    nature_mutation := pyOfString "Vente"
    valeur_fonciere := some 720000
    code_commune := pyOfString "75056"
    nom_commune := pyOfString "Paris"
    code_departement := pyOfString "75"
    type_local := pyOfString "Local commercial"
    surface_reelle_bati := some 60
    nombre_pieces_principales := some 3
    prix_m2 := some 12000 }

/-- The city statistics of `[exCleanA, exCleanB]`. -/
def exParisStats2 : CityStats :=
  { prix_moyen_m2 := some 11000
    prix_median_m2 := some 11000
    prix_min_m2 := some 10000
    prix_max_m2 := some 12000
    nombre_transactions := 2
    nombre_t1 := 0
    nombre_t2 := 1
    nombre_t3 := 1
    nombre_t4 := 0
    nombre_t5_plus := 0
    surface_moyenne := some 55 }

/-- `exRawSale` after the price-derivation stage. -/
def exRawSale4 : DvfRow := { exRawSale with prix_m2 := some 10000 }

/-- The cleaned output row of `cleanDvfData [exRawSale]`. -/
def exCleanedSale : DvfRow :=
  { date_mutation := .parsed (some 20230115)
    nature_mutation := pyOfString "Vente"
    valeur_fonciere := some 500000
    code_commune := pyOfString "75056"
    nom_commune := pyOfString "Paris"
    code_departement := pyOfString "75"
    type_local := pyOfString "Appartement"
    surface_reelle_bati := some 50
    nombre_pieces_principales := some 2
    prix_m2 := some 10000 }

/-! ## Theorems for the claims -/

/-- An absent optional string is falsy. -/
theorem truthyS_none : truthyS none = false := rfl

/-- C6: `RentStats.is_reliable` is a pure function of the stored adjusted-R²
and commune observation count; it is true iff adjusted R² ≥ 0.5 and the
commune observation count ≥ 30, false when either field is missing, and in
particular true at (0.75, 150), false at (0.3, 150), false at (0.75, 20),
and false at (None, None). -/
theorem isReliable_spec :
    (∀ s t : RentStats, s.r2_ajuste = t.r2_ajuste →
      s.nb_observations_commune = t.nb_observations_commune →
      s.isReliable = t.isReliable) ∧
    (∀ s : RentStats, s.isReliable = true ↔
      ((∃ r, s.r2_ajuste = some r ∧ 1/2 ≤ r) ∧
       (∃ n, s.nb_observations_commune = some n ∧ 30 ≤ n))) ∧
    RentStats.isReliable
      { r2_ajuste := some (3/4), nb_observations_commune := some 150 } = true ∧
    RentStats.isReliable
      { r2_ajuste := some (3/10), nb_observations_commune := some 150 } = false ∧
    RentStats.isReliable
      { r2_ajuste := some (3/4), nb_observations_commune := some 20 } = false ∧
    RentStats.isReliable
      { r2_ajuste := none, nb_observations_commune := none } = false := by
  refine ⟨?_, ?_, by norm_num [RentStats.isReliable, truthyQ, truthyZ],
    by norm_num [RentStats.isReliable, truthyQ, truthyZ],
    by norm_num [RentStats.isReliable, truthyQ, truthyZ],
    by norm_num [RentStats.isReliable, truthyQ, truthyZ]⟩
  · intro s t hr hn
    simp [RentStats.isReliable, hr, hn]
  · intro s
    rcases hr : s.r2_ajuste with _ | r <;>
      rcases hn : s.nb_observations_commune with _ | n <;>
        simp [RentStats.isReliable, truthyQ, truthyZ, hr, hn]
    by_cases h0 : r = 0
    · subst h0
      norm_num
    · by_cases h1 : n = 0
      · subst h1
        simp only [h0, not_false_iff, false_or, if_neg]
        norm_num
      · simp [h0, h1]

/-- C2 counterexample: supplying BOTH a commune name and an INSEE code is
not an error — the lookup silently uses the INSEE code. -/
theorem getCityRentStats_both_no_error :
    getCityRentStats [exRentPantinApt]
        (some (pyOfString "Pantin")) (some (pyOfString "93055")) =
      .ok (some (mkRentStats exRentPantinApt)) := rfl

/-- C2 (amended): `get_city_rent_stats` raises `ValueError` when neither
criterion is truthy; when both are supplied the INSEE code silently takes
precedence (no error); a supplied criterion matching no row gives `none`,
not an error. -/
theorem getCityRentStats_criteria :
    (∀ (data : List RentRow) (name insee : Option PyStr),
       truthyS insee = false → truthyS name = false →
       getCityRentStats data name insee = .error .valueError) ∧
    (∀ (data : List RentRow) (name insee : Option PyStr),
       truthyS insee = true →
       getCityRentStats data name insee = getCityRentStats data none insee) ∧
    (∀ (data : List RentRow) (name insee : Option PyStr),
       truthyS insee = true →
       data.filter (matchesInsee (insee.getD [])) = [] →
       getCityRentStats data name insee = .ok none) ∧
    (∀ (data : List RentRow) (name : Option PyStr),
       truthyS name = true →
       data.filter (matchesLibgeo (name.getD [])) = [] →
       getCityRentStats data name none = .ok none) := by
  refine ⟨?_, ?_, ?_, ?_⟩
  · intro data name insee h1 h2
    simp [getCityRentStats, h1, h2]
  · intro data name insee h
    simp [getCityRentStats, h]
  · intro data name insee h hfil
    simp [getCityRentStats, h, hfil]
  · intro data name h hfil
    simp only [getCityRentStats, truthyS_none, Bool.false_eq_true, if_false, h, if_true, hfil]

/-- Witness for `getCityRentStats_criteria` at concrete inputs. -/
theorem getCityRentStats_criteria_w :
    getCityRentStats ([exRentPantinApt]) none none = .error .valueError ∧
    getCityRentStats [exRentPantinApt]
        (some (pyOfString "Pantin")) (some (pyOfString "93055")) =
      getCityRentStats [exRentPantinApt] none (some (pyOfString "93055")) ∧
    getCityRentStats [exRentPantinApt] none (some (pyOfString "99999")) = .ok none ∧
    getCityRentStats [exRentPantinApt] (some (pyOfString "Nulle-Part")) none = .ok none := by
  refine ⟨getCityRentStats_criteria.1 _ none none rfl rfl,
    getCityRentStats_criteria.2.1 _ _ _ rfl,
    getCityRentStats_criteria.2.2.1 _ none _ rfl rfl,
    getCityRentStats_criteria.2.2.2 _ _ rfl rfl⟩

/-- C10: when several rows match the lookup criterion (for instance the
apartment row and the house row of the same commune after the two files
are concatenated), `get_city_rent_stats` returns the statistics of the
FIRST matching row only, ignoring the rest. -/
theorem getCityRentStats_first_match :
    (∀ (data : List RentRow) (name insee : Option PyStr) (r : RentRow)
       (rest : List RentRow),
       truthyS insee = true →
       data.filter (matchesInsee (insee.getD [])) = r :: rest →
       getCityRentStats data name insee = .ok (some (mkRentStats r))) ∧
    (∀ (data : List RentRow) (name : Option PyStr) (r : RentRow)
       (rest : List RentRow),
       truthyS name = true →
       data.filter (matchesLibgeo (name.getD [])) = r :: rest →
       getCityRentStats data name none = .ok (some (mkRentStats r))) := by
  constructor
  · intro data name insee r rest h hfil
    simp [getCityRentStats, h, hfil]
  · intro data name r rest h hfil
    simp only [getCityRentStats, truthyS_none, Bool.false_eq_true, if_false, h, if_true, hfil]

/-- Witness for `getCityRentStats_first_match`: with the apartment row
concatenated before the house row for the same commune, the lookup by name
returns the apartment statistics and ignores the house row. -/
theorem getCityRentStats_first_match_w :
    getCityRentStats [exRentPantinApt, exRentPantinHouse]
        (some (pyOfString "Pantin")) none =
      .ok (some (mkRentStats exRentPantinApt)) :=
  getCityRentStats_first_match.2 _ _ exRentPantinApt [exRentPantinHouse]
    rfl rfl

/-- C1 counterexample: `calculate_rental_yield` called with
`prix_achat_m2 = 0` (and rent data present) raises `ZeroDivisionError`
instead of returning a null yield. -/
theorem calculateRentalYield_zero_price_raises :
    calculateRentalYield (some exRentStats) (some 0) none = .zeroDivError := by
  norm_num [calculateRentalYield, truthyQ, exRentStats]

/-- C1 (amended): the gross rental yield equals
(monthly rent-per-area × 12 ÷ mean sale price-per-area) × 100. In
`get_all_cities_combined_stats` the yield is null whenever the rent value
is missing, the price lookup failed or found nothing, the mean price is
missing, or the mean price is ≤ 0. In `calculate_rental_yield` the yield
is computed for any nonzero price, and is null when no price is available
— but an explicit `prix_achat_m2 = 0` raises `ZeroDivisionError` rather
than yielding null. -/
theorem rentalYield_spec :
    (∀ (r : RentRow) (ps : CityStats) (l pm : ℚ),
       r.loypredm2 = some l → l ≠ 0 → ps.prix_moyen_m2 = some pm → 0 < pm →
       (combinedRow r (some (.ok (some ps)))).rendement_brut_pct =
         some (l * 12 / pm * 100)) ∧
    (∀ (r : RentRow) (ps : CityStats),
       r.loypredm2 = none →
       (combinedRow r (some (.ok (some ps)))).rendement_brut_pct = none) ∧
    (∀ (r : RentRow) (ps : CityStats) (pm : ℚ),
       ps.prix_moyen_m2 = some pm → pm ≤ 0 →
       (combinedRow r (some (.ok (some ps)))).rendement_brut_pct = none) ∧
    (∀ (r : RentRow) (ps : CityStats),
       ps.prix_moyen_m2 = none →
       (combinedRow r (some (.ok (some ps)))).rendement_brut_pct = none) ∧
    (∀ (r : RentRow) (lk : Option LookupResult),
       lk = none ∨ lk = some .exn ∨ lk = some (.ok none) →
       (combinedRow r lk).rendement_brut_pct = none) ∧
    (∀ (rs : RentStats) (l p : ℚ) (dvf : Option LookupResult),
       rs.loyer_moyen_m2 = some l → l ≠ 0 → p ≠ 0 →
       ∃ bas haut fiable,
         calculateRentalYield (some rs) (some p) dvf =
           .computed l (l * 12) p (l * 12 / p * 100) bas haut fiable) ∧
    (∀ (rs : RentStats) (l : ℚ) (dvf : Option LookupResult),
       rs.loyer_moyen_m2 = some l → l ≠ 0 →
       dvf = none ∨ dvf = some .exn ∨ dvf = some (.ok none) →
       calculateRentalYield (some rs) none dvf = .noPrice l (l * 12)) ∧
    (∀ (rs : RentStats) (l : ℚ),
       rs.loyer_moyen_m2 = some l → l ≠ 0 →
       ∀ dvf, calculateRentalYield (some rs) (some 0) dvf = .zeroDivError) := by
  refine ⟨?_, ?_, ?_, ?_, ?_, ?_, ?_, ?_⟩
  · intro r ps l pm hl hl0 hpm hpm0
    simp [combinedRow, combinedRowBase, truthyQ, hl, hl0, hpm, hpm0]
  · intro r ps hl
    simp [combinedRow, combinedRowBase, truthyQ, hl]
  · intro r ps pm hpm hpm0
    have : ¬ (0 < pm) := not_lt.mpr hpm0
    simp [combinedRow, combinedRowBase, truthyQ, hpm, this]
  · intro r ps hpm
    simp [combinedRow, combinedRowBase, hpm]
  · rintro r lk (rfl | rfl | rfl) <;> rfl
  · intro rs l p dvf hl hl0 hp0
    refine ⟨if truthyQ rs.loyer_bas_m2 then
        some (rs.loyer_bas_m2.getD 0 * 12 / p * 100) else none,
      if truthyQ rs.loyer_haut_m2 then
        some (rs.loyer_haut_m2.getD 0 * 12 / p * 100) else none,
      rs.isReliable, ?_⟩
    simp [calculateRentalYield, truthyQ, hl, hl0, hp0]
  · rintro rs l dvf hl hl0 (rfl | rfl | rfl) <;>
      simp [calculateRentalYield, truthyQ, hl, hl0]
  · intro rs l hl hl0 dvf
    simp [calculateRentalYield, truthyQ, hl, hl0]

/-- Witness for `rentalYield_spec`: 28.5 €/m² of rent against a
10 000 €/m² mean price yields (28.5 × 12 / 10000) × 100 %, and the same
rent with an explicit zero price raises. -/
theorem rentalYield_spec_w :
    ((combinedRow exRentParis (some (.ok (some exParisCityStats)))).rendement_brut_pct =
      some ((57/2) * 12 / 10000 * 100)) ∧
    calculateRentalYield (some exRentStats) (some 0) (some .exn) = .zeroDivError :=
  ⟨rentalYield_spec.1 exRentParis exParisCityStats (57/2) 10000 rfl (by norm_num)
      rfl (by norm_num),
    rentalYield_spec.2.2.2.2.2.2.2 exRentStats (57/2) rfl (by norm_num) (some .exn)⟩

/-- C9: in `get_all_cities_combined_stats`, a price-lookup failure for one
commune does not abort the batch: the output still has one row per rent
row; the failing commune's row is the rent-only row with a null price side
and null yield; and each output row depends only on the lookup result for
its own commune, so one commune's failure leaves every other row
unaffected. -/
theorem combinedStats_partial_failure :
    (∀ (data : List RentRow) (dvf : Option (PyStr → LookupResult)),
       (getAllCitiesCombinedStats data none dvf).length = data.length) ∧
    (∀ (data : List RentRow) (f : PyStr → LookupResult) (i : ℕ) (r : RentRow),
       data[i]? = some r → f r.LIBGEO = .exn →
       (getAllCitiesCombinedStats data none (some f))[i]? =
         some (combinedRowBase r)) ∧
    (∀ (data : List RentRow) (f g : PyStr → LookupResult) (i : ℕ) (r : RentRow),
       data[i]? = some r → f r.LIBGEO = g r.LIBGEO →
       (getAllCitiesCombinedStats data none (some f))[i]? =
         (getAllCitiesCombinedStats data none (some g))[i]?) ∧
    (∀ r : RentRow,
       (combinedRowBase r).prix_moyen_m2 = none ∧
       (combinedRowBase r).prix_min_m2 = none ∧
       (combinedRowBase r).prix_max_m2 = none ∧
       (combinedRowBase r).nb_transactions = none ∧
       (combinedRowBase r).rendement_brut_pct = none ∧
       (combinedRowBase r).commune = r.LIBGEO ∧
       (combinedRowBase r).loyer_moyen_m2 = r.loypredm2) := by
  refine ⟨?_, ?_, ?_, ?_⟩
  · intro data dvf
    simp [getAllCitiesCombinedStats, truthyS_none]
  · intro data f i r hi hf
    simp [getAllCitiesCombinedStats, truthyS_none, List.getElem?_map, hi, hf, combinedRow]
  · intro data f g i r hi hfg
    simp [getAllCitiesCombinedStats, truthyS_none, List.getElem?_map, hi, hfg]
  · intro r
    exact ⟨rfl, rfl, rfl, rfl, rfl, rfl, rfl⟩

/-- Witness for `combinedStats_partial_failure`: a lookup that fails on
`"Paris"` still emits Paris's rent-only row, and agreeing lookups give the
same row for the other commune. -/
theorem combinedStats_partial_failure_w :
    (getAllCitiesCombinedStats [exRentParis, exRentMontreuil] none
        (some (fun n => if n = pyOfString "Paris" then .exn else .ok none)))[0]? =
      some (combinedRowBase exRentParis) ∧
    (getAllCitiesCombinedStats [exRentParis, exRentMontreuil] none
        (some (fun n => if n = pyOfString "Paris" then .exn else .ok none)))[1]? =
      (getAllCitiesCombinedStats [exRentParis, exRentMontreuil] none
        (some (fun _ => .ok none)))[1]? :=
  ⟨combinedStats_partial_failure.2.1 _ _ 0 exRentParis rfl (by decide),
   combinedStats_partial_failure.2.2.1 _ _ _ 1 exRentMontreuil rfl (by decide)⟩

/-- C8: `get_top_cities(n, ascending)` returns the first `n` communes in
the requested rent order: with `ascending=False` the returned rents are
pairwise descending (missing rents last), with `ascending=True` pairwise
ascending; on rents {28.5, 22.3, 18.7} and n = 2 the descending call
returns [28.5, 22.3] in that order and the ascending call [18.7, 22.3]. -/
theorem getTopCities_order :
    (∀ (data : List RentRow) (n : ℕ) (dept : Option PyStr),
       ((getTopCities data n dept false).map (·.loyer_moyen_m2)).Pairwise
         (fun a b => optLeDesc a b = true)) ∧
    (∀ (data : List RentRow) (n : ℕ) (dept : Option PyStr),
       ((getTopCities data n dept true).map (·.loyer_moyen_m2)).Pairwise
         (fun a b => optLeAsc a b = true)) ∧
    (getTopCities [exRentParis, exRentMontreuil, exRentMeaux] 2 none false).map
        (·.loyer_moyen_m2) = [some (57/2), some (223/10)] ∧
    (getTopCities [exRentParis, exRentMontreuil, exRentMeaux] 2 none true).map
        (·.loyer_moyen_m2) = [some (187/10), some (223/10)] := by
  refine ⟨?_, ?_, ?_, ?_⟩
  · intro data n dept
    simp only [getTopCities, List.map_map, Bool.false_eq_true, if_false]
    rw [List.pairwise_map]
    exact (List.sorted_insertionSort rentDesc _).take.imp (fun hab => hab)
  · intro data n dept
    simp only [getTopCities, List.map_map, if_true]
    rw [List.pairwise_map]
    exact (List.sorted_insertionSort rentAsc _).take.imp (fun hab => hab)
  · norm_num [getTopCities, truthyS_none, List.insertionSort, List.orderedInsert,
      rentDesc, rentAsc, optLeDesc, optLeAsc, exRentParis, exRentMontreuil,
      exRentMeaux, exRentBase, toTopCityRow]
  · norm_num [getTopCities, truthyS_none, List.insertionSort, List.orderedInsert,
      rentDesc, rentAsc, optLeDesc, optLeAsc, exRentParis, exRentMontreuil,
      exRentMeaux, exRentBase, toTopCityRow]

/-- C7: `get_city_stats` is invariant under the letter-case of the city
name (its filter only sees the uppercased name), returns `none` rather
than an error when no row matches, and consequently the combined join
matches a price-side commune spelled `"PARIS"` with a rent-side commune
spelled `"Paris"` (the joined row carries the price side). -/
theorem getCityStats_case_insensitive :
    (∀ (df : List DvfRow) (a b : PyStr), pyUpper a = pyUpper b →
       getCityStats df a = getCityStats df b) ∧
    (∀ (df : List DvfRow) (name : PyStr),
       df.filter (matchesCity name) = [] → getCityStats df name = none) ∧
    ((getAllCitiesCombinedStats [exRentParis] none
        (some (dvfLookupOf [exParisPriceRow])))[0]?.map (·.prix_moyen_m2) =
      some (some 10000)) := by
  refine ⟨?_, ?_, ?_⟩
  · intro df a b h
    have hm : matchesCity a = matchesCity b := by
      funext r
      simp [matchesCity, h]
    simp only [getCityStats, hm]
  · intro df name h
    simp [getCityStats, h]
  · have hfil : List.filter (matchesCity (pyOfString "Paris")) [exParisPriceRow] =
        [exParisPriceRow] := rfl
    have hlook : getCityStats [exParisPriceRow] (pyOfString "Paris") =
        some exParisCityStats := by
      have hvals : prixVals [exParisPriceRow] = [10000] := rfl
      have hsurf : surfVals [exParisPriceRow] = [50] := rfl
      have happ : List.filter (fun r => decide (r.type_local = pyOfString "Appartement"))
          [exParisPriceRow] = [] := rfl
      have hmai : List.filter (fun r => decide (r.type_local = pyOfString "Maison"))
          [exParisPriceRow] = [] := rfl
      simp only [getCityStats, hfil, hvals, hsurf, happ, hmai]
      norm_num [pdMean, pdSum, pdMin, pdMax, pdMedian,
        roomCountEq, roomCountGe5, exParisPriceRow, exParisCityStats,
        List.insertionSort, List.orderedInsert, List.filter_cons, List.filter_nil]
    show some ((combinedRow exRentParis
        (some (LookupResult.ok (getCityStats [exParisPriceRow]
          (pyOfString "Paris"))))).prix_moyen_m2) = some (some 10000)
    rw [hlook]
    rfl

/-- Witness for `getCityStats_case_insensitive`: lowercase `"paris"` and
uppercase `"PARIS"` give the same result, and `"Unknown"` gives `none`. -/
theorem getCityStats_case_insensitive_w :
    getCityStats [exParisPriceRow] (pyOfString "paris") =
      getCityStats [exParisPriceRow] (pyOfString "PARIS") ∧
    getCityStats [exParisPriceRow] (pyOfString "Unknown") = none :=
  ⟨getCityStats_case_insensitive.1 _ _ _ rfl,
   getCityStats_case_insensitive.2.1 _ _ rfl⟩

/-- The left fold of `min` is below its seed and every element. -/
theorem foldl_min_le (t : List ℚ) :
    ∀ a : ℚ, t.foldl min a ≤ a ∧ ∀ x ∈ t, t.foldl min a ≤ x := by
  induction t with
  | nil =>
    intro a
    exact ⟨le_refl a, by simp⟩
  | cons x t ih =>
    intro a
    refine ⟨le_trans (ih (min a x)).1 (min_le_left a x), ?_⟩
    intro y hy
    rcases List.mem_cons.mp hy with rfl | hy
    · exact le_trans (ih (min a y)).1 (min_le_right a y)
    · exact (ih (min a x)).2 y hy

/-- The left fold of `max` is above its seed and every element. -/
theorem foldl_max_ge (t : List ℚ) :
    ∀ a : ℚ, a ≤ t.foldl max a ∧ ∀ x ∈ t, x ≤ t.foldl max a := by
  induction t with
  | nil =>
    intro a
    exact ⟨le_refl a, by simp⟩
  | cons x t ih =>
    intro a
    refine ⟨le_trans (le_max_left a x) (ih (max a x)).1, ?_⟩
    intro y hy
    rcases List.mem_cons.mp hy with rfl | hy
    · exact le_trans (le_max_right a y) (ih (max a y)).1
    · exact (ih (max a x)).2 y hy

/-- A fold of sums is bounded above by the seed plus length times a bound. -/
theorem foldl_add_le (t : List ℚ) :
    ∀ (a M : ℚ), (∀ x ∈ t, x ≤ M) → t.foldl (· + ·) a ≤ a + t.length * M := by
  induction t with
  | nil => simp
  | cons x t ih =>
    intro a M hM
    have hx : x ≤ M := hM x (List.mem_cons_self x t)
    have ht : ∀ y ∈ t, y ≤ M := fun y hy => hM y (List.mem_cons_of_mem x hy)
    have h1 := ih (a + x) M ht
    have hc : ((x :: t).length : ℚ) = (t.length : ℚ) + 1 := by
      push_cast [List.length_cons]
      ring
    calc (x :: t).foldl (· + ·) a = t.foldl (· + ·) (a + x) := rfl
      _ ≤ (a + x) + t.length * M := h1
      _ ≤ a + (x :: t).length * M := by
          rw [hc]
          linarith

/-- A fold of sums is bounded below by the seed plus length times a bound. -/
theorem foldl_add_ge (t : List ℚ) :
    ∀ (a m : ℚ), (∀ x ∈ t, m ≤ x) → a + t.length * m ≤ t.foldl (· + ·) a := by
  induction t with
  | nil => simp
  | cons x t ih =>
    intro a m hm
    have hx : m ≤ x := hm x (List.mem_cons_self x t)
    have ht : ∀ y ∈ t, m ≤ y := fun y hy => hm y (List.mem_cons_of_mem x hy)
    have h1 := ih (a + x) m ht
    have hc : ((x :: t).length : ℚ) = (t.length : ℚ) + 1 := by
      push_cast [List.length_cons]
      ring
    calc a + (x :: t).length * m = (a + m) + t.length * m := by
          rw [hc]
          ring
      _ ≤ (a + x) + t.length * m := by linarith
      _ ≤ t.foldl (· + ·) (a + x) := h1
      _ = (x :: t).foldl (· + ·) a := rfl

/-- The median of a non-empty list lies within any bounds that contain
all its elements. -/
theorem pdMedian_bounds (x : ℚ) (t : List ℚ) (m M : ℚ)
    (hm : ∀ y ∈ x :: t, m ≤ y) (hM : ∀ y ∈ x :: t, y ≤ M) :
    ∃ md, pdMedian (x :: t) = some md ∧ m ≤ md ∧ md ≤ M := by
  have hmem : ∀ i (hi : i < ((x :: t).insertionSort (· ≤ ·)).length),
      m ≤ ((x :: t).insertionSort (· ≤ ·))[i] ∧
        ((x :: t).insertionSort (· ≤ ·))[i] ≤ M := by
    intro i hi
    have hin : ((x :: t).insertionSort (· ≤ ·))[i] ∈ x :: t :=
      (List.mem_insertionSort (· ≤ ·)).mp (List.getElem_mem hi)
    exact ⟨hm _ hin, hM _ hin⟩
  have hlen : ((x :: t).insertionSort (· ≤ ·)).length = t.length + 1 := by
    rw [List.length_insertionSort]
    rfl
  by_cases hodd : ((x :: t).insertionSort (· ≤ ·)).length % 2 = 1
  · have hi : ((x :: t).insertionSort (· ≤ ·)).length / 2 <
        ((x :: t).insertionSort (· ≤ ·)).length := by omega
    refine ⟨_, ?_, (hmem _ hi).1, (hmem _ hi).2⟩
    simp only [pdMedian, hodd, if_true, List.getD_eq_getElem _ _ hi]
  · have h2 : 2 ≤ ((x :: t).insertionSort (· ≤ ·)).length := by omega
    have hi1 : ((x :: t).insertionSort (· ≤ ·)).length / 2 - 1 <
        ((x :: t).insertionSort (· ≤ ·)).length := by omega
    have hi2 : ((x :: t).insertionSort (· ≤ ·)).length / 2 <
        ((x :: t).insertionSort (· ≤ ·)).length := by omega
    refine ⟨(((x :: t).insertionSort (· ≤ ·)).get
        ⟨((x :: t).insertionSort (· ≤ ·)).length / 2 - 1, hi1⟩ +
      ((x :: t).insertionSort (· ≤ ·)).get
        ⟨((x :: t).insertionSort (· ≤ ·)).length / 2, hi2⟩) / 2, ?_, ?_, ?_⟩
    · simp only [pdMedian, hodd, if_false, List.getD_eq_getElem _ _ hi1,
        List.getD_eq_getElem _ _ hi2, List.get_eq_getElem]
    · have a1 := (hmem _ hi1).1
      have a2 := (hmem _ hi2).1
      simp only [List.get_eq_getElem]
      linarith
    · have a1 := (hmem _ hi1).2
      have a2 := (hmem _ hi2).2
      simp only [List.get_eq_getElem]
      linarith

/-- Over any non-empty list of values, min ≤ median ≤ max and
min ≤ mean ≤ max. -/
theorem statsBounds (x : ℚ) (t : List ℚ) :
    ∃ mn md mx av, pdMin (x :: t) = some mn ∧ pdMedian (x :: t) = some md ∧
      pdMax (x :: t) = some mx ∧ pdMean (x :: t) = some av ∧
      mn ≤ md ∧ md ≤ mx ∧ mn ≤ av ∧ av ≤ mx := by
  have hmin := foldl_min_le t x
  have hmax := foldl_max_ge t x
  have hmlow : ∀ y ∈ x :: t, t.foldl min x ≤ y := by
    intro y hy
    rcases List.mem_cons.mp hy with rfl | hy
    · exact hmin.1
    · exact hmin.2 y hy
  have hmhigh : ∀ y ∈ x :: t, y ≤ t.foldl max x := by
    intro y hy
    rcases List.mem_cons.mp hy with rfl | hy
    · exact hmax.1
    · exact hmax.2 y hy
  obtain ⟨md, hmd, hmd1, hmd2⟩ := pdMedian_bounds x t _ _ hmlow hmhigh
  have hn : (0 : ℚ) < (x :: t).length := by
    have h0 : 0 < (x :: t).length := List.length_pos.mpr (List.cons_ne_nil x t)
    exact_mod_cast h0
  have hsumlow : (x :: t).length * t.foldl min x ≤ pdSum (x :: t) := by
    have := foldl_add_ge (x :: t) 0 (t.foldl min x) hmlow
    simpa [pdSum] using this
  have hsumhigh : pdSum (x :: t) ≤ (x :: t).length * t.foldl max x := by
    have := foldl_add_le (x :: t) 0 (t.foldl max x) hmhigh
    simpa [pdSum] using this
  refine ⟨t.foldl min x, md, t.foldl max x, pdSum (x :: t) / (x :: t).length,
    rfl, hmd, rfl, rfl, hmd1, hmd2, ?_, ?_⟩
  · rw [le_div_iff hn]
    calc t.foldl min x * (x :: t).length = (x :: t).length * t.foldl min x := by ring
      _ ≤ pdSum (x :: t) := hsumlow
  · rw [div_le_iff hn]
    calc pdSum (x :: t) ≤ (x :: t).length * t.foldl max x := hsumhigh
      _ = t.foldl max x * (x :: t).length := by ring

/-- C5: for every city name matching at least one row of a table whose
rows all carry a price-per-area (as every cleaned table does), the
returned `CityStats` satisfies
`prix_min_m2 ≤ prix_median_m2 ≤ prix_max_m2` and
`prix_min_m2 ≤ prix_moyen_m2 ≤ prix_max_m2`. -/
theorem getCityStats_stat_order :
    ∀ (df : List DvfRow) (name : PyStr) (st : CityStats),
      (∀ r ∈ df, r.prix_m2 ≠ none) →
      getCityStats df name = some st →
      ∃ mn md mx av, st.prix_min_m2 = some mn ∧ st.prix_median_m2 = some md ∧
        st.prix_max_m2 = some mx ∧ st.prix_moyen_m2 = some av ∧
        mn ≤ md ∧ md ≤ mx ∧ mn ≤ av ∧ av ≤ mx := by
  intro df name st hprix h
  rcases hc : df.filter (matchesCity name) with _ | ⟨r0, rest⟩
  · rw [getCityStats, hc] at h
    exact absurd h (by simp)
  · rw [getCityStats, hc] at h
    have hr0 : r0 ∈ df := (List.mem_filter.mp (hc ▸ List.mem_cons_self r0 rest)).1
    obtain ⟨p, hp⟩ : ∃ p, r0.prix_m2 = some p :=
      Option.ne_none_iff_exists'.mp (hprix r0 hr0)
    have hvals : prixVals (r0 :: rest) = p :: rest.filterMap (·.prix_m2) := by
      simp [prixVals, hp]
    obtain rfl : _ = st := Option.some.inj h
    rw [hvals]
    obtain ⟨mn, md, mx, av, h1, h2, h3, h4, h5⟩ :=
      statsBounds p (rest.filterMap (·.prix_m2))
    exact ⟨mn, md, mx, av, h1, h2, h3, h4, h5⟩

/-- Witness for `getCityStats_stat_order`: the two-row Paris table from
the spec example (10 000 and 12 000 €/m²) gives min 10 000 ≤
median 11 000 ≤ max 12 000 and min ≤ mean 11 000 ≤ max. -/
theorem getCityStats_stat_order_w :
    ∃ mn md mx av, exParisStats2.prix_min_m2 = some mn ∧
      exParisStats2.prix_median_m2 = some md ∧
      exParisStats2.prix_max_m2 = some mx ∧
      exParisStats2.prix_moyen_m2 = some av ∧
      mn ≤ md ∧ md ≤ mx ∧ mn ≤ av ∧ av ≤ mx := by
  refine getCityStats_stat_order [exCleanA, exCleanB] (pyOfString "Paris")
    exParisStats2 ?_ ?_
  · intro r hr
    rcases List.mem_cons.mp hr with rfl | hr
    · simp [exCleanA]
    · rcases List.mem_cons.mp hr with rfl | hr
      · simp [exCleanB]
      · exact absurd hr (List.not_mem_nil r)
  · have hfil : List.filter (matchesCity (pyOfString "Paris")) [exCleanA, exCleanB] =
        [exCleanA, exCleanB] := rfl
    have hvals : prixVals [exCleanA, exCleanB] = [10000, 12000] := rfl
    have hsurf : surfVals [exCleanA, exCleanB] = [50, 60] := rfl
    have happ : List.filter (fun r => decide (r.type_local = pyOfString "Appartement"))
        [exCleanA, exCleanB] = [] := rfl
    have hmai : List.filter (fun r => decide (r.type_local = pyOfString "Maison"))
        [exCleanA, exCleanB] = [] := rfl
    simp only [getCityStats, hfil, hvals, hsurf, happ, hmai]
    norm_num [pdMean, pdSum, pdMin, pdMax, pdMedian, roomCountEq, roomCountGe5,
      exCleanA, exCleanB, exParisStats2, List.insertionSort, List.orderedInsert,
      List.filter_cons, List.filter_nil, List.getD, min_def, max_def]

/-- Deduplication only ever returns rows of its input. -/
theorem dropDupFirstAux_subset {α : Type} [DecidableEq α] :
    ∀ (l seen : List α), ∀ a ∈ dropDupFirstAux seen l, a ∈ l := by
  intro l
  induction l with
  | nil =>
    intro seen a ha
    exact absurd ha (List.not_mem_nil a)
  | cons b l ih =>
    intro seen a ha
    rw [dropDupFirstAux] at ha
    by_cases hb : b ∈ seen
    · rw [if_pos hb] at ha
      exact List.mem_cons_of_mem b (ih seen a ha)
    · rw [if_neg hb] at ha
      rcases List.mem_cons.mp ha with rfl | ha
      · exact List.mem_cons_self a l
      · exact List.mem_cons_of_mem b (ih _ a ha)

/-- C3: every row of a cleaned transaction table has a derived
price-per-area within `[MIN_PRICE_M2, MAX_PRICE_M2]` (inclusive) and a
built surface ≥ `MIN_SURFACE`. -/
theorem cleanDvfData_bounds :
    ∀ (df : List DvfRow), ∀ r ∈ cleanDvfData df,
      (∃ p, r.prix_m2 = some p ∧ MIN_PRICE_M2 ≤ p ∧ p ≤ MAX_PRICE_M2) ∧
      (∃ s, r.surface_reelle_bati = some s ∧ MIN_SURFACE ≤ s) := by
  intro df r hr
  have hr8 := dropDupFirstAux_subset _ [] r hr
  obtain ⟨r7, hr7, rfl⟩ := List.mem_map.mp hr8
  obtain ⟨r5, hr5, rfl⟩ := List.mem_map.mp hr7
  have h5 := List.mem_filter.mp hr5
  obtain ⟨r3, hr3, rfl⟩ := List.mem_map.mp h5.1
  have h3 := List.mem_filter.mp hr3
  have hprix := h5.2
  have hsurf := h3.2
  constructor
  · rcases hpx : (computePrix r3).prix_m2 with _ | p
    · rw [passesPrix, hpx] at hprix
      exact absurd hprix (by simp)
    · rw [passesPrix, hpx] at hprix
      refine ⟨p, ?_, of_decide_eq_true hprix⟩
      simpa [normalizeNom, parseDates] using hpx
    
  · rcases hsx : r3.surface_reelle_bati with _ | s
    · rw [passesSurface, hsx] at hsurf
      exact absurd hsurf (by simp)
    · rw [passesSurface, hsx] at hsurf
      refine ⟨s, ?_, of_decide_eq_true hsurf⟩
      simpa [normalizeNom, parseDates, computePrix] using hsx

/-- Witness for `cleanDvfData_bounds`: cleaning the single raw sale row
(500 000 € over 50 m²) yields one row, whose price 10 000 €/m² is inside
the band and whose surface 50 m² is ≥ 9. -/
theorem cleanDvfData_bounds_w :
    exCleanedSale ∈ cleanDvfData [exRawSale] ∧
    ((∃ p, exCleanedSale.prix_m2 = some p ∧ MIN_PRICE_M2 ≤ p ∧ p ≤ MAX_PRICE_M2) ∧
     (∃ s, exCleanedSale.surface_reelle_bati = some s ∧ MIN_SURFACE ≤ s)) := by
  have hcp : computePrix exRawSale = exRawSale4 := by
    simp [computePrix, exRawSale, exRawSale4, optDiv]
    norm_num
  have hclean : cleanDvfData [exRawSale] = [exCleanedSale] := by
    show dropDupFirst ((([computePrix exRawSale].filter passesPrix).map
      parseDates).map normalizeNom) = [exCleanedSale]
    rw [hcp]
    rfl
  have hm : exCleanedSale ∈ cleanDvfData [exRawSale] := by
    rw [hclean]
    exact List.mem_cons_self _ _
  exact ⟨hm, cleanDvfData_bounds [exRawSale] exCleanedSale hm⟩

/-- Uppercasing a codepoint does not change whether it is whitespace. -/
theorem isSpaceChar_upperChar (c : Nat) : isSpaceChar (upperChar c) = isSpaceChar c := by
  unfold upperChar isSpaceChar
  split
  · rename_i h
    simp only [decide_eq_decide]
    omega
  · rfl

/-- Lowercasing a codepoint does not change whether it is whitespace. -/
theorem isSpaceChar_lowerChar (c : Nat) : isSpaceChar (lowerChar c) = isSpaceChar c := by
  unfold lowerChar isSpaceChar
  split
  · rename_i h
    simp only [decide_eq_decide]
    omega
  · rfl

/-- Uppercasing a codepoint does not change whether it is a letter. -/
theorem isAlphaChar_upperChar (c : Nat) : isAlphaChar (upperChar c) = isAlphaChar c := by
  unfold upperChar isAlphaChar
  split
  · rename_i h
    simp only [decide_eq_decide]
    omega
  · rfl

/-- Lowercasing a codepoint does not change whether it is a letter. -/
theorem isAlphaChar_lowerChar (c : Nat) : isAlphaChar (lowerChar c) = isAlphaChar c := by
  unfold lowerChar isAlphaChar
  split
  · rename_i h
    simp only [decide_eq_decide]
    omega
  · rfl

/-- ASCII uppercasing is idempotent. -/
theorem upperChar_upperChar (c : Nat) : upperChar (upperChar c) = upperChar c := by
  unfold upperChar
  by_cases h : 97 ≤ c ∧ c ≤ 122
  · simp only [if_pos h]
    rw [if_neg (by omega)]
  · simp only [if_neg h]

/-- ASCII lowercasing is idempotent. -/
theorem lowerChar_lowerChar (c : Nat) : lowerChar (lowerChar c) = lowerChar c := by
  unfold lowerChar
  by_cases h : 65 ≤ c ∧ c ≤ 90
  · simp only [if_pos h]
    rw [if_neg (by omega)]
  · simp only [if_neg h]

/-- `titleAux` is idempotent at every carry flag. -/
theorem titleAux_idem : ∀ (s : PyStr) (prev : Bool),
    titleAux prev (titleAux prev s) = titleAux prev s := by
  intro s
  induction s with
  | nil =>
    intro prev
    rfl
  | cons c cs ih =>
    intro prev
    by_cases hc : isAlphaChar c = true
    · cases prev
      · simp only [titleAux, hc, if_true, Bool.false_eq_true, if_false,
          isAlphaChar_upperChar, upperChar_upperChar, ih true]
      · simp only [titleAux, hc, if_true,
          isAlphaChar_lowerChar, lowerChar_lowerChar, ih true]
    · rw [Bool.not_eq_true] at hc
      simp only [titleAux, hc, Bool.false_eq_true, if_false, ih false]

/-- `titleAux` preserves the whitespace mask of the string. -/
theorem titleAux_map_isSpace : ∀ (s : PyStr) (prev : Bool),
    (titleAux prev s).map isSpaceChar = s.map isSpaceChar := by
  intro s
  induction s with
  | nil =>
    intro prev
    rfl
  | cons c cs ih =>
    intro prev
    by_cases hc : isAlphaChar c = true
    · cases prev
      · simp only [titleAux, hc, if_true, Bool.false_eq_true, if_false,
          List.map_cons, isSpaceChar_upperChar, ih true]
      · simp only [titleAux, hc, if_true, List.map_cons, isSpaceChar_lowerChar, ih true]
    · rw [Bool.not_eq_true] at hc
      simp only [titleAux, hc, Bool.false_eq_true, if_false, List.map_cons, ih false]

/-- A stripped string has no leading whitespace. -/
theorem pyStrip_dropWhile (s : PyStr) :
    (pyStrip s).dropWhile isSpaceChar = pyStrip s := by
  rw [List.dropWhile_eq_self_iff]
  intro hl
  have hpref := List.rdropWhile_prefix isSpaceChar (s.dropWhile isSpaceChar)
  have hlf : (pyStrip s).length ≤ (s.dropWhile isSpaceChar).length := hpref.length_le
  have hlen : 0 < (s.dropWhile isSpaceChar).length := lt_of_lt_of_le hl hlf
  have hget : (pyStrip s).get ⟨0, hl⟩ = (s.dropWhile isSpaceChar).get ⟨0, hlen⟩ := by
    simp only [List.get_eq_getElem]
    exact hpref.getElem hl
  rw [hget]
  exact List.dropWhile_get_zero_not isSpaceChar s hlen

/-- A stripped string has no trailing whitespace. -/
theorem pyStrip_rdropWhile (s : PyStr) :
    (pyStrip s).rdropWhile isSpaceChar = pyStrip s :=
  List.rdropWhile_idempotent isSpaceChar (s.dropWhile isSpaceChar)

/-- Having no leading whitespace transfers along an equal whitespace mask. -/
theorem dropWhile_eq_self_of_mask (l l2 : PyStr)
    (hmask : l.map isSpaceChar = l2.map isSpaceChar)
    (h : l2.dropWhile isSpaceChar = l2) : l.dropWhile isSpaceChar = l := by
  rw [List.dropWhile_eq_self_iff] at h ⊢
  intro hl
  have hlen : l.length = l2.length := by
    have h2 := congrArg List.length hmask
    simpa using h2
  have hl2 : 0 < l2.length := by omega
  have hm0 : isSpaceChar (l.get ⟨0, hl⟩) = isSpaceChar (l2.get ⟨0, hl2⟩) := by
    have e1 : isSpaceChar (l.get ⟨0, hl⟩) = (l.map isSpaceChar).getD 0 false := by
      simp [List.get_eq_getElem, List.getD_eq_getElem, hl]
    have e2 : isSpaceChar (l2.get ⟨0, hl2⟩) = (l2.map isSpaceChar).getD 0 false := by
      simp [List.get_eq_getElem, List.getD_eq_getElem, hl2]
    rw [e1, e2, hmask]
  have h2 := h hl2
  simp only [hm0]
  exact h2

/-- Having no trailing whitespace transfers along an equal whitespace mask. -/
theorem rdropWhile_eq_self_of_mask (l l2 : PyStr)
    (hmask : l.map isSpaceChar = l2.map isSpaceChar)
    (h : l2.rdropWhile isSpaceChar = l2) : l.rdropWhile isSpaceChar = l := by
  unfold List.rdropWhile at h ⊢
  rw [List.reverse_eq_iff] at h ⊢
  refine dropWhile_eq_self_of_mask _ _ ?_ h
  rw [List.map_reverse, List.map_reverse, hmask]

/-- The commune-name normalizer `title ∘ strip` is idempotent. -/
theorem title_strip_idem (s : PyStr) :
    pyTitle (pyStrip (pyTitle (pyStrip s))) = pyTitle (pyStrip s) := by
  have hmask : (pyTitle (pyStrip s)).map isSpaceChar = (pyStrip s).map isSpaceChar :=
    titleAux_map_isSpace (pyStrip s) false
  have h1 : (pyTitle (pyStrip s)).dropWhile isSpaceChar = pyTitle (pyStrip s) :=
    dropWhile_eq_self_of_mask _ _ hmask (pyStrip_dropWhile s)
  have h2 : (pyTitle (pyStrip s)).rdropWhile isSpaceChar = pyTitle (pyStrip s) :=
    rdropWhile_eq_self_of_mask _ _ hmask (pyStrip_rdropWhile s)
  have hstrip : pyStrip (pyTitle (pyStrip s)) = pyTitle (pyStrip s) := by
    show List.rdropWhile isSpaceChar ((pyTitle (pyStrip s)).dropWhile isSpaceChar) =
      pyTitle (pyStrip s)
    rw [h1, h2]
  rw [hstrip]
  exact titleAux_idem _ false

/-- Deduplication yields duplicate-free output avoiding the seen set. -/
theorem dropDupFirstAux_nodup {α : Type} [DecidableEq α] :
    ∀ (l seen : List α),
      (dropDupFirstAux seen l).Nodup ∧ ∀ a ∈ dropDupFirstAux seen l, a ∉ seen := by
  intro l
  induction l with
  | nil =>
    intro seen
    exact ⟨List.nodup_nil, by simp [dropDupFirstAux]⟩
  | cons b l ih =>
    intro seen
    rw [dropDupFirstAux]
    by_cases hb : b ∈ seen
    · rw [if_pos hb]
      exact ih seen
    · rw [if_neg hb]
      obtain ⟨hnd, hout⟩ := ih (b :: seen)
      refine ⟨List.nodup_cons.mpr ⟨?_, hnd⟩, ?_⟩
      · intro hbin
        exact hout b hbin (List.mem_cons_self b seen)
      · intro a ha
        rcases List.mem_cons.mp ha with rfl | ha
        · exact hb
        · intro hseen
          exact hout a ha (List.mem_cons_of_mem b hseen)

/-- Deduplication is the identity on a duplicate-free list that avoids the
seen set. -/
theorem dropDupFirstAux_eq_self {α : Type} [DecidableEq α] :
    ∀ (l seen : List α), l.Nodup → (∀ a ∈ l, a ∉ seen) →
      dropDupFirstAux seen l = l := by
  intro l
  induction l with
  | nil =>
    intro seen _ _
    rfl
  | cons b l ih =>
    intro seen hnd hav
    rw [dropDupFirstAux, if_neg (hav b (List.mem_cons_self b l))]
    congr 1
    refine ih (b :: seen) (List.nodup_cons.mp hnd).2 ?_
    intro a ha
    intro hmem
    rcases List.mem_cons.mp hmem with rfl | hmem
    · exact (List.nodup_cons.mp hnd).1 ha
    · exact hav a (List.mem_cons_of_mem b ha) hmem

/-- The date parser is the identity on already-parsed entries. -/
theorem toDatetime_idem (d : DateVal) : toDatetime (toDatetime d) = toDatetime d := by
  cases d <;> rfl

/-- `parseDates` fixes a row whose date is already a parse fixed point. -/
theorem parseDates_eq_self (r : DvfRow) (h : toDatetime r.date_mutation = r.date_mutation) :
    parseDates r = r := by
  cases r
  simp only [parseDates] at h ⊢
  simp [h]

/-- `normalizeNom` fixes a row whose name is already normalized. -/
theorem normalizeNom_eq_self (r : DvfRow) (h : pyTitle (pyStrip r.nom_commune) = r.nom_commune) :
    normalizeNom r = r := by
  cases r
  simp only [normalizeNom] at h ⊢
  simp [h]

/-- `computePrix` fixes a row whose price already equals value / surface. -/
theorem computePrix_eq_self (r : DvfRow)
    (h : r.prix_m2 = optDiv r.valeur_fonciere r.surface_reelle_bati) :
    computePrix r = r := by
  cases r
  simp only [computePrix] at h ⊢
  simp [h]

/-- Every row of a cleaned table passes every filter again and is a fixed
point of every per-row transformation of the cleaner. -/
theorem cleanDvfData_row_fixed :
    ∀ (df : List DvfRow), ∀ r ∈ cleanDvfData df,
      passesMutation r = true ∧ passesValeur r = true ∧ passesSurface r = true ∧
      computePrix r = r ∧ passesPrix r = true ∧ parseDates r = r ∧ normalizeNom r = r := by
  intro df r hr
  have hr8 := dropDupFirstAux_subset _ [] r hr
  obtain ⟨r7, hr7, rfl⟩ := List.mem_map.mp hr8
  obtain ⟨r5, hr5, rfl⟩ := List.mem_map.mp hr7
  have h5 := List.mem_filter.mp hr5
  obtain ⟨r3, hr3, rfl⟩ := List.mem_map.mp h5.1
  have h3 := List.mem_filter.mp hr3
  have h2 := List.mem_filter.mp h3.1
  have h1 := List.mem_filter.mp h2.1
  refine ⟨h1.2, h2.2, h3.2, ?_, h5.2, ?_, ?_⟩
  · refine computePrix_eq_self _ ?_
    show (computePrix r3).prix_m2 = optDiv r3.valeur_fonciere r3.surface_reelle_bati
    rfl
  · refine parseDates_eq_self _ ?_
    show toDatetime (toDatetime r3.date_mutation) = toDatetime r3.date_mutation
    exact toDatetime_idem r3.date_mutation
  · refine normalizeNom_eq_self _ ?_
    show pyTitle (pyStrip (pyTitle (pyStrip r3.nom_commune))) =
      pyTitle (pyStrip r3.nom_commune)
    exact title_strip_idem r3.nom_commune

/-- C4: the cleaner is idempotent — re-cleaning a cleaned table returns it
unchanged (so in particular the same row set). -/
theorem cleanDvfData_idem :
    ∀ (df : List DvfRow), cleanDvfData (cleanDvfData df) = cleanDvfData df := by
  intro df
  have hfix := cleanDvfData_row_fixed df
  have hnodup : (cleanDvfData df).Nodup := (dropDupFirstAux_nodup _ []).1
  have e1 : (cleanDvfData df).filter passesMutation = cleanDvfData df :=
    List.filter_eq_self.mpr (fun a ha => (hfix a ha).1)
  have e2 : (cleanDvfData df).filter passesValeur = cleanDvfData df :=
    List.filter_eq_self.mpr (fun a ha => (hfix a ha).2.1)
  have e3 : (cleanDvfData df).filter passesSurface = cleanDvfData df :=
    List.filter_eq_self.mpr (fun a ha => (hfix a ha).2.2.1)
  have e4 : (cleanDvfData df).map computePrix = cleanDvfData df := by
    have := List.map_congr_left (fun a ha => (hfix a ha).2.2.2.1)
    simpa using this
  have e5 : (cleanDvfData df).filter passesPrix = cleanDvfData df :=
    List.filter_eq_self.mpr (fun a ha => (hfix a ha).2.2.2.2.1)
  have e6 : (cleanDvfData df).map parseDates = cleanDvfData df := by
    have := List.map_congr_left (fun a ha => (hfix a ha).2.2.2.2.2.1)
    simpa using this
  have e7 : (cleanDvfData df).map normalizeNom = cleanDvfData df := by
    have := List.map_congr_left (fun a ha => (hfix a ha).2.2.2.2.2.2)
    simpa using this
  have e8 : dropDupFirst (cleanDvfData df) = cleanDvfData df :=
    dropDupFirstAux_eq_self _ [] hnodup (by simp)
  show dropDupFirst ((((((((cleanDvfData df).filter passesMutation).filter
    passesValeur).filter passesSurface).map computePrix).filter passesPrix).map
      parseDates).map normalizeNom) = cleanDvfData df
  rw [e1, e2, e3, e4, e5, e6, e7, e8]

/-- Witness for `isReliable_spec`: the reliability flag at (0.75, 150)
agrees with the flag of the full Paris rent record carrying the same two
fields, and the characterisation instantiates at that record. -/
theorem isReliable_spec_w :
    RentStats.isReliable
        { r2_ajuste := some (3/4), nb_observations_commune := some 150 } =
      RentStats.isReliable (mkRentStats exRentParis) ∧
    (RentStats.isReliable (mkRentStats exRentParis) = true ↔
      ((∃ r, (mkRentStats exRentParis).r2_ajuste = some r ∧ 1/2 ≤ r) ∧
       (∃ n, (mkRentStats exRentParis).nb_observations_commune = some n ∧ 30 ≤ n))) :=
  ⟨isReliable_spec.1 _ _ rfl rfl, isReliable_spec.2.1 _⟩
